import Mathlib

/-!
Shallow embedding of the chat-server authentication/session/friends core
(`src/auth/oauth.py`, `src/auth/routes.py`, `src/auth/dependencies.py`,
`src/db/services.py`, `src/friends/routes.py`) and proofs about the
claims of its specification.

Modelling conventions:
* Python dicts used as sets/maps (`active_states`, `pending_clients`,
  `client_token_storage`) become association lists; dict assignment is
  cons-after-filter (so a key occurs at most once), `del` is filter.
* Python timestamps become `Int` (seconds); `datetime.now(timezone.utc)`
  becomes an explicit `now : Int` parameter.
* Python truthiness of optional strings ( `if not email:` ... ) is made
  explicit by `truthyStr`.
* Fallible Python code returns `Except PyErr`; exceptions that the source
  catches are modelled as values of `PyErr`.
-/

namespace ChatServer

/-- Python truthiness of an optional string: `None` and `""` are falsy. -/
def truthyStr : Option String → Bool
  | none => false
  | some s => s != ""

/-- Exception kinds that appear in the embedded code. -/
inductive PyErr
  | valueErr      -- Python ValueError
  | typeErr       -- Python TypeError
  | integrityErr  -- sqlalchemy IntegrityError
  | otherErr      -- any other exception (injected storage faults)
  deriving Repr, DecidableEq

/-! ## Session rows and `get_user_id_from_session` (src/db/services.py:185-199) -/

/-- A row of the `session` table (src/db/database.py:83-94). -/
structure DbSessionRow where
  id : String
  token : String
  expiresAt : Int
  userId : String
  ipAddress : Option String
  userAgent : Option String
  deriving Repr, DecidableEq

/-- src/db/services.py:185-199 — `get_user_id_from_session`: first session row
whose token equals the argument and whose `expiresAt` is strictly in the
future; `None` otherwise. -/
def get_user_id_from_session (sessions : List DbSessionRow) (now : Int)
    (session_token : String) : Option String :=
  match sessions.find? (fun s => s.token == session_token && decide (now < s.expiresAt)) with
  | none => none
  | some s => some s.userId

/-! ## Claim C4 -/

/-- C4: `get_user_id_from_session` returns the owning userId only when a
session row with the given token exists and its expiry is strictly after
`now`; for a token that does not exist, or whose expiry is at or before
`now` (the token column being unique), it returns `none`. -/
theorem C4_validateSession_fails_closed (sessions : List DbSessionRow)
    (now : Int) (tok : String)
    (huniq : (sessions.map DbSessionRow.token).Nodup) :
    (∀ uid, get_user_id_from_session sessions now tok = some uid →
      ∃ s ∈ sessions, s.token = tok ∧ now < s.expiresAt ∧ s.userId = uid) ∧
    ((∀ s ∈ sessions, s.token ≠ tok) →
      get_user_id_from_session sessions now tok = none) ∧
    (∀ s ∈ sessions, s.token = tok → s.expiresAt ≤ now →
      get_user_id_from_session sessions now tok = none) := by
  refine ⟨?_, ?_, ?_⟩
  · intro uid h
    unfold get_user_id_from_session at h
    cases hf : sessions.find? (fun s => s.token == tok && decide (now < s.expiresAt)) with
    | none => rw [hf] at h; simp at h
    | some s =>
      rw [hf] at h
      simp only [Option.some.injEq] at h
      have hmem := List.mem_of_find?_eq_some hf
      have hp := List.find?_some hf
      simp only [Bool.and_eq_true, beq_iff_eq, decide_eq_true_eq] at hp
      exact ⟨s, hmem, hp.1, hp.2, h⟩
  · intro hall
    unfold get_user_id_from_session
    cases hf : sessions.find? (fun s => s.token == tok && decide (now < s.expiresAt)) with
    | none => rfl
    | some s =>
      have hmem := List.mem_of_find?_eq_some hf
      have hp := List.find?_some hf
      simp only [Bool.and_eq_true, beq_iff_eq, decide_eq_true_eq] at hp
      exact absurd hp.1 (hall s hmem)
  · intro s hs htok hexp
    unfold get_user_id_from_session
    cases hf : sessions.find? (fun s => s.token == tok && decide (now < s.expiresAt)) with
    | none => rfl
    | some s' =>
      have hmem := List.mem_of_find?_eq_some hf
      have hp := List.find?_some hf
      simp only [Bool.and_eq_true, beq_iff_eq, decide_eq_true_eq] at hp
      have : s = s' := List.inj_on_of_nodup_map huniq hs hmem (by rw [htok, hp.1])
      subst this
      exact absurd hp.2 (not_lt.mpr hexp)

/-- Witness for C4 at a concrete store: the session `t2` expired at 40, so a
lookup at time 50 yields no identity. -/
theorem C4_validateSession_fails_closed_witness :
    get_user_id_from_session
      [⟨"s1", "t1", 100, "u1", none, none⟩, ⟨"s2", "t2", 40, "u2", none, none⟩]
      50 "t2" = none :=
  (C4_validateSession_fails_closed
      [⟨"s1", "t1", 100, "u1", none, none⟩, ⟨"s2", "t2", 40, "u2", none, none⟩]
      50 "t2" (by decide)).2.2
    ⟨"s2", "t2", 40, "u2", none, none⟩ (by simp) rfl (by decide)

/-! ## Token extraction from header/cookie (src/auth/dependencies.py:10-43) -/

/-- One pass of Python's `str.replace(pat, "")` over a character list: scan
left to right, deleting each (non-overlapping) occurrence of `pat`.  `fuel`
is an upper bound on the number of steps (the list length suffices when
`pat` is nonempty, as it is at the one call site, pattern `"Bearer "`). -/
def pyReplaceDelAux (pat : List Char) : Nat → List Char → List Char
  | _, [] => []
  | 0, l => l
  | Nat.succ fuel, c :: rest =>
    if pat.isPrefixOf (c :: rest) then
      pyReplaceDelAux pat fuel (List.drop pat.length (c :: rest))
    else
      c :: pyReplaceDelAux pat fuel rest

/-- Python `s.replace(pat, "")`: delete every occurrence of `pat` in `s`. -/
def pyReplaceDel (s pat : String) : String :=
  String.mk (pyReplaceDelAux pat.toList s.toList.length s.toList)

/-- Python `s.startswith(pat)`. -/
def pyStartsWith (s pat : String) : Bool :=
  pat.toList.isPrefixOf s.toList

/-- src/auth/dependencies.py:19-26 — token selection in `get_current_user_id`:
take the Authorization header if it is truthy and starts with `"Bearer "`,
extracting by `replace("Bearer ", "")` (which deletes every occurrence);
fall back to the `session_token` cookie whenever the extracted header token
is falsy; a falsy final token means no credential at all. -/
def extract_token (authorization : Option String) (cookie : Option String) :
    Option String :=
  let token : Option String :=
    match authorization with
    | some a =>
      if a != "" && pyStartsWith a "Bearer " then some (pyReplaceDel a "Bearer ")
      else none
    | none => none
  let token := if truthyStr token then token else cookie
  if truthyStr token then token else none

/-- src/auth/dependencies.py:10-43 — `get_current_user_id`: 401 when no
credential is supplied or the session is invalid/expired, else the user id. -/
def get_current_user_id (authorization : Option String) (cookie : Option String)
    (sessions : List DbSessionRow) (now : Int) : Except Nat String :=
  match extract_token authorization cookie with
  | none => .error 401
  | some t =>
    match get_user_id_from_session sessions now t with
    | none => .error 401
    | some uid => .ok uid

/-! ## Claim C10 -/

/-- C10 counterexample: with header `"Bearer "` (which starts with
`"Bearer "`) and cookie `"c"`, the code consults the cookie and returns
`"c"`, not the header-extracted token `""` — so the header does not always
win when it carries the `"Bearer "` marker. -/
theorem C10_header_precedence_counterexample :
    pyStartsWith "Bearer " "Bearer " = true ∧
    extract_token (some "Bearer ") (some "c") = some "c" ∧
    some "c" ≠ some (pyReplaceDel "Bearer " "Bearer ") := by
  refine ⟨by decide, by decide, ?_⟩
  intro h
  simp only [Option.some.injEq] at h
  exact absurd h (by decide)

/-- C10 (amended): the Authorization header wins over the cookie exactly when
it starts with `"Bearer "` and deleting every occurrence of `"Bearer "` from
it leaves a nonempty token; otherwise (header absent, lacking the marker, or
extracting to the empty string) the cookie is consulted; extraction deletes
every occurrence of the substring `"Bearer "`, not only the leading one. -/
theorem C10_header_precedence_amended (a c : String) :
    (pyStartsWith a "Bearer " = true → pyReplaceDel a "Bearer " ≠ "" →
      extract_token (some a) (some c) = some (pyReplaceDel a "Bearer ")) ∧
    ((pyStartsWith a "Bearer " = false ∨ pyReplaceDel a "Bearer " = "") →
      c ≠ "" → extract_token (some a) (some c) = some c) ∧
    ((pyStartsWith a "Bearer " = false ∨ pyReplaceDel a "Bearer " = "") →
      c = "" → extract_token (some a) (some c) = none) := by
  have hne : pyStartsWith a "Bearer " = true → (a != "") = true := by
    intro h
    unfold pyStartsWith at h
    rcases List.isPrefixOf_iff_prefix.mp h with ⟨t, ht⟩
    have : a.toList ≠ [] := by
      intro hnil
      rw [hnil] at ht
      exact absurd ht (by simp)
    simp only [bne_iff_ne, ne_eq]
    intro hae
    apply this
    rw [hae]
    rfl
  refine ⟨?_, ?_, ?_⟩
  · intro hs hnz
    simp [extract_token, truthyStr, hne hs, hs, hnz]
  · intro hor hc
    rcases hor with hs | hz
    · simp [extract_token, truthyStr, hs, hc]
    · cases hcond : ((a != "") && pyStartsWith a "Bearer ") with
      | false => simp [extract_token, truthyStr, hcond, hc]
      | true => simp [extract_token, truthyStr, hcond, hz, hc]
  · intro hor hc
    subst hc
    rcases hor with hs | hz
    · simp [extract_token, truthyStr, hs]
    · cases hcond : ((a != "") && pyStartsWith a "Bearer ") with
      | false => simp [extract_token, truthyStr, hcond]
      | true => simp [extract_token, truthyStr, hcond, hz]

/-- Witness for the amended C10: header `"Bearer tok123"` with cookie
`"cook"` yields the header token `"tok123"`; header `"Token x"` with cookie
`"cook"` yields the cookie. -/
theorem C10_header_precedence_amended_witness :
    extract_token (some "Bearer tok123") (some "cook") =
      some (pyReplaceDel "Bearer tok123" "Bearer ") ∧
    extract_token (some "Token x") (some "cook") = some "cook" :=
  ⟨(C10_header_precedence_amended "Bearer tok123" "cook").1 (by decide) (by decide),
   (C10_header_precedence_amended "Token x" "cook").2.1 (Or.inl (by decide)) (by decide)⟩

/-! ## User store and `find_or_create_user` (src/db/services.py:16-59) -/

/-- A row of the `user` table (src/db/database.py:44-59). -/
structure DbUser where
  id : String
  name : Option String
  email : String
  emailVerified : Bool
  image : Option String
  deriving Repr, DecidableEq

/-- The provider profile dict returned by `get_user_info`
(src/auth/oauth.py:148-159): the keys the code reads. -/
structure UserInfo where
  email : Option String
  name : Option String
  verified_email : Bool
  picture : Option String
  gid : Option String   -- the profile's "id" key
  deriving Repr, DecidableEq

/-- src/db/services.py:16-59 — `find_or_create_user`.
`commitRaces` models whether `db.commit()` of the fresh insert raises
`IntegrityError` (a concurrent insert of the same email won the race);
`usersAtCommit` is the store contents as seen at commit/re-query time.
Returns the user, the `is_new_user` flag, and the resulting store. -/
def find_or_create_user (users : List DbUser) (user_info : UserInfo)
    (newUserId : String) (commitRaces : Bool) (usersAtCommit : List DbUser) :
    Except PyErr (DbUser × Bool × List DbUser) :=
  match user_info.email with
  | none => .error .valueErr
  | some email =>
    if email == "" then .error .valueErr
    else
      match users.find? (fun u => u.email == email) with
      | some user => .ok (user, false, users)
      | none =>
        let user : DbUser :=
          { id := newUserId, name := user_info.name, email := email,
            emailVerified := user_info.verified_email, image := user_info.picture }
        if commitRaces then
          match usersAtCommit.find? (fun u => u.email == email) with
          | some winner => .ok (winner, false, usersAtCommit)
          | none => .error .integrityErr
        else
          .ok (user, true, users ++ [user])

/-! ## Claim C6 -/

/-- C6: `find_or_create_user` fails with a `ValueError` on a profile without
a (truthy) email; on a new email it inserts a new user; if the insert's
commit hits a uniqueness violation it rolls back, re-queries by email, and
returns the existing row with `is_new_user = false`; if the re-query finds
nothing the original `IntegrityError` propagates. -/
theorem C6_identity_resolver (users : List DbUser) (ui : UserInfo)
    (nid : String) (races : Bool) (atC : List DbUser) :
    (truthyStr ui.email = false →
      find_or_create_user users ui nid races atC = .error .valueErr) ∧
    (∀ email, ui.email = some email → email ≠ "" →
      users.find? (fun u => u.email == email) = none →
      (races = false →
        find_or_create_user users ui nid races atC =
          .ok (⟨nid, ui.name, email, ui.verified_email, ui.picture⟩, true,
               users ++ [⟨nid, ui.name, email, ui.verified_email, ui.picture⟩])) ∧
      (races = true → ∀ w, atC.find? (fun u => u.email == email) = some w →
        find_or_create_user users ui nid races atC = .ok (w, false, atC)) ∧
      (races = true → atC.find? (fun u => u.email == email) = none →
        find_or_create_user users ui nid races atC = .error .integrityErr)) := by
  constructor
  · intro hfal
    cases he : ui.email with
    | none => simp [find_or_create_user, he]
    | some e =>
      rw [he] at hfal
      have hee : e = "" := by simpa [truthyStr] using hfal
      subst hee
      simp [find_or_create_user, he]
  · intro email he hne hfind
    refine ⟨?_, ?_, ?_⟩
    · intro hr
      subst hr
      simp [find_or_create_user, he, hne, hfind]
    · intro hr w hw
      subst hr
      simp [find_or_create_user, he, hne, hfind, hw]
    · intro hr hw
      subst hr
      simp [find_or_create_user, he, hne, hfind, hw]

/-- Witness for C6 at concrete inputs: a missing email fails; a fresh email
on an empty store inserts; a racing commit returns the concurrent winner
with `is_new_user = false`. -/
theorem C6_identity_resolver_witness :
    find_or_create_user [] ⟨none, some "Al", false, none, none⟩ "u9" false [] =
      .error .valueErr ∧
    find_or_create_user [] ⟨some "alice@x.com", some "Al", false, none, none⟩
        "u9" false [] =
      .ok (⟨"u9", some "Al", "alice@x.com", false, none⟩, true,
           [⟨"u9", some "Al", "alice@x.com", false, none⟩]) ∧
    find_or_create_user [] ⟨some "alice@x.com", some "Al", false, none, none⟩
        "u9" true [⟨"w1", some "W", "alice@x.com", true, none⟩] =
      .ok (⟨"w1", some "W", "alice@x.com", true, none⟩, false,
           [⟨"w1", some "W", "alice@x.com", true, none⟩]) :=
  ⟨(C6_identity_resolver [] ⟨none, some "Al", false, none, none⟩ "u9" false []).1
      (by decide),
   ((C6_identity_resolver [] ⟨some "alice@x.com", some "Al", false, none, none⟩
        "u9" false []).2 "alice@x.com" rfl (by decide) rfl).1 rfl,
   ((C6_identity_resolver [] ⟨some "alice@x.com", some "Al", false, none, none⟩
        "u9" true [⟨"w1", some "W", "alice@x.com", true, none⟩]).2
      "alice@x.com" rfl (by decide) rfl).2.1 rfl
      ⟨"w1", some "W", "alice@x.com", true, none⟩ (by decide)⟩

/-! ## Account store and `create_or_update_account` (src/db/services.py:62-147) -/

/-- A value that may sit under `expires_in` / `refresh_token_expires_in` in
the token-data dict: a `datetime` object, a number (anything Python's
`int()` accepts, e.g. an int or float seconds count), or a truthy value
`int()` rejects (e.g. a non-numeric string).  A falsy unparseable value
(`""`, `None`) behaves exactly like `enum 0`/absence under the code's
truthiness guard, so it needs no separate constructor. -/
inductive ExpVal
  | edt (t : Int)     -- a datetime instance (absolute timestamp)
  | enum (s : Int)    -- a numeric seconds count
  | ebad              -- truthy but not convertible by int()
  deriving Repr, DecidableEq

/-- Python truthiness of an optional `expires_in`-style value. -/
def truthyExp : Option ExpVal → Bool
  | none => false
  | some (.edt _) => true
  | some (.enum s) => s != 0
  | some .ebad => true

/-- Python `int(v)`: succeeds on numbers, raises `TypeError` on a datetime,
`ValueError` on a non-numeric string. -/
def pyInt : ExpVal → Except PyErr Int
  | .edt _ => .error .typeErr
  | .enum s => .ok s
  | .ebad => .error .valueErr

/-- src/db/services.py:75-93 — the guarded access-token expiry computation:
nothing stored for a falsy value; a datetime used directly; otherwise
`now + int(v)` with a fallback of `now + 1h` when `int()` raises. -/
def computeAccessExpires (now : Int) (expires_in : Option ExpVal) : Option Int :=
  if truthyExp expires_in then
    match expires_in with
    | some (.edt t) => some t
    | some v =>
      match pyInt v with
      | .ok s => some (now + s)
      | .error _ => some (now + 3600)
    | none => none
  else none

/-- src/db/services.py:95-99 — the unguarded refresh-token expiry
computation: `now + int(v)` for a truthy value, with any `int()` exception
propagating. -/
def computeRefreshExpires (now : Int) (v : Option ExpVal) :
    Except PyErr (Option Int) :=
  if truthyExp v then
    match v with
    | some w =>
      match pyInt w with
      | .ok s => .ok (some (now + s))
      | .error e => .error e
    | none => .ok none
  else .ok none

/-- A row of the `account` table (src/db/database.py:63-79). -/
structure DbAccount where
  id : String
  accountId : Option String
  providerId : String
  userId : String
  accessToken : Option String
  refreshToken : Option String
  idToken : Option String
  accessTokenExpiresAt : Option Int
  refreshTokenExpiresAt : Option Int
  scope : Option String
  updatedAt : Int
  deriving Repr, DecidableEq

/-- The token-data dict built in src/auth/oauth.py:96-104 and consumed by
`create_or_update_account`; the optional keys added later in the flow
(`user_info`, `session_token`, `user_id`) included. -/
structure TokenData where
  token : Option String
  refresh_token : Option String
  id_token : Option String := none
  expires_in : Option ExpVal := none
  refresh_token_expires_in : Option ExpVal := none
  scopes : Option (List String) := none
  user_info : Option UserInfo := none
  session_token : Option String := none
  user_id : Option String := none
  deriving Repr, DecidableEq

/-- src/db/services.py:62-147 — `create_or_update_account`: find the
(userId, providerId) row; compute expiries, scope and account id; create the
row or update it field-conditionally.  The sequential in-place mutations of
the update branch are written as one record update (no mutated field is read
back afterwards in the source). -/
def create_or_update_account (accounts : List DbAccount) (user_id : String)
    (provider_id : String) (token_data : TokenData) (now : Int)
    (newRowId : String) : Except PyErr (DbAccount × List DbAccount) :=
  let existing :=
    accounts.find? (fun a => a.userId == user_id && a.providerId == provider_id)
  let access_expires := computeAccessExpires now token_data.expires_in
  match computeRefreshExpires now token_data.refresh_token_expires_in with
  | .error e => .error e
  | .ok refresh_expires =>
    let scope : Option String :=
      match token_data.scopes with
      | some l => some (String.intercalate " " l)
      | none => none
    let google_id : Option String :=
      if provider_id == "google" then
        match token_data.user_info with
        | some ui => ui.gid
        | none => none
      else none
    let fallback := provider_id ++ "_" ++ user_id
    let account_id : String :=
      match google_id with
      | some g => if g == "" then fallback else g
      | none => fallback
    match existing with
    | none =>
      let account : DbAccount :=
        { id := newRowId, accountId := some account_id,
          providerId := provider_id, userId := user_id,
          accessToken := token_data.token,
          refreshToken := token_data.refresh_token,
          idToken := token_data.id_token,
          accessTokenExpiresAt := access_expires,
          refreshTokenExpiresAt := refresh_expires,
          scope := scope, updatedAt := now }
      .ok (account, accounts ++ [account])
    | some acct =>
      let acct' : DbAccount :=
        { acct with
          accountId :=
            if truthyStr acct.accountId = false && account_id != "" then
              some account_id
            else acct.accountId,
          accessToken := token_data.token,
          refreshToken :=
            if truthyStr token_data.refresh_token then token_data.refresh_token
            else acct.refreshToken,
          idToken :=
            if truthyStr token_data.id_token then token_data.id_token
            else acct.idToken,
          accessTokenExpiresAt := access_expires,
          refreshTokenExpiresAt := refresh_expires,
          scope := if truthyStr scope then scope else acct.scope,
          updatedAt := now }
      .ok (acct', accounts.map (fun a => if a.id == acct.id then acct' else a))

/-! ## Claim C5 -/

/-- C5 counterexample: `expires_in = 0` is a present expiry value (a
relative seconds count), yet the stored access-token expiry is `none`, not
`now + 0`: the guard `if token_data.get("expires_in"):` treats the falsy
`0` as absent. -/
theorem C5_expiry_counterexample :
    create_or_update_account [] "u1" "google"
        { token := some "tok", refresh_token := none,
          expires_in := some (ExpVal.enum 0) } 1000 "a1" =
      .ok (⟨"a1", some "google_u1", "google", "u1", some "tok", none, none,
            none, none, none, 1000⟩,
           [⟨"a1", some "google_u1", "google", "u1", some "tok", none, none,
             none, none, none, 1000⟩]) ∧
    (none : Option Int) ≠ some (1000 + 0) := by
  constructor
  · rfl
  · intro h
    exact absurd h (by decide)

/-- C5 (amended): for a token bundle whose expiry value is truthy, the
stored access-token expiry is: a datetime used directly; a numeric seconds
count added to `now`; an unparseable value replaced by `now + 1h`.  A falsy
expiry value (absent, `0`, empty) stores no expiry.  The access-expiry value
never makes `create_or_update_account` fail (the bundle's separate
`refresh_token_expires_in` being absent, as it always is in this repo's
bundles). -/
theorem C5_expiry_amended (now : Int) (accounts : List DbAccount)
    (uid pid rid : String) (td : TokenData)
    (hrt : td.refresh_token_expires_in = none) :
    (∃ acct rest, create_or_update_account accounts uid pid td now rid =
        .ok (acct, rest) ∧
      acct.accessTokenExpiresAt = computeAccessExpires now td.expires_in) ∧
    (∀ t, td.expires_in = some (.edt t) →
      computeAccessExpires now td.expires_in = some t) ∧
    (∀ s, td.expires_in = some (.enum s) → s ≠ 0 →
      computeAccessExpires now td.expires_in = some (now + s)) ∧
    (td.expires_in = some .ebad →
      computeAccessExpires now td.expires_in = some (now + 3600)) ∧
    (truthyExp td.expires_in = false →
      computeAccessExpires now td.expires_in = none) := by
  refine ⟨?_, ?_, ?_, ?_, ?_⟩
  · unfold create_or_update_account
    rw [hrt]
    simp only [computeRefreshExpires, truthyExp, Bool.false_eq_true, if_false]
    cases hf : accounts.find?
        (fun a => a.userId == uid && a.providerId == pid) with
    | none => exact ⟨_, _, rfl, rfl⟩
    | some acct => exact ⟨_, _, rfl, rfl⟩
  · intro t ht
    simp [computeAccessExpires, truthyExp, ht]
  · intro s hs hnz
    simp [computeAccessExpires, truthyExp, hs, hnz, pyInt]
  · intro hb
    simp [computeAccessExpires, truthyExp, hb, pyInt]
  · intro hfal
    simp [computeAccessExpires, hfal]

/-- Witness for the amended C5: a datetime expiry is stored directly; a
numeric expiry is added to `now`; an unparseable one falls back to
`now + 3600`. -/
theorem C5_expiry_amended_witness :
    (∃ acct rest, create_or_update_account [] "u1" "google"
        { token := some "tok", refresh_token := none,
          expires_in := some (ExpVal.edt 777) } 1000 "a1" = .ok (acct, rest) ∧
      acct.accessTokenExpiresAt =
        computeAccessExpires 1000 (some (ExpVal.edt 777))) ∧
    computeAccessExpires 1000 (some (ExpVal.edt 777)) = some 777 ∧
    computeAccessExpires 1000 (some (ExpVal.enum 60)) = some (1000 + 60) ∧
    computeAccessExpires 1000 (some ExpVal.ebad) = some (1000 + 3600) :=
  ⟨(C5_expiry_amended 1000 [] "u1" "google" "a1"
      { token := some "tok", refresh_token := none,
        expires_in := some (ExpVal.edt 777) } rfl).1,
   (C5_expiry_amended 1000 [] "u1" "google" "a1"
      { token := some "tok", refresh_token := none,
        expires_in := some (ExpVal.edt 777) } rfl).2.1 777 rfl,
   (C5_expiry_amended 1000 [] "u1" "google" "a1"
      { token := some "tok", refresh_token := none,
        expires_in := some (ExpVal.enum 60) } rfl).2.2.1 60 rfl (by decide),
   (C5_expiry_amended 1000 [] "u1" "google" "a1"
      { token := some "tok", refresh_token := none,
        expires_in := some ExpVal.ebad } rfl).2.2.2.1 rfl⟩

/-! ## `create_session` (src/db/services.py:150-177) -/

/-- src/db/services.py:150-177 — `create_session`: a fresh unguessable token
unless a truthy one is supplied, absolute expiry `now + expires_in` days,
appended to the store. -/
def create_session (sessions : List DbSessionRow) (user_id : String)
    (token : Option String) (ip_address user_agent : Option String)
    (now : Int) (freshRowId freshToken : String) (expires_in : Int := 30) :
    DbSessionRow × List DbSessionRow :=
  let tok : String :=
    match token with
    | some t => if t == "" then freshToken else t
    | none => freshToken
  let row : DbSessionRow :=
    { id := freshRowId, token := tok, expiresAt := now + expires_in * 86400,
      userId := user_id, ipAddress := ip_address, userAgent := user_agent }
  (row, sessions ++ [row])

/-! ## OAuth code exchange (src/auth/oauth.py) -/

/-- The fields of `flow.credentials` read in src/auth/oauth.py:95-104 after a
successful `fetch_token`. -/
structure ProviderCreds where
  token : String
  refresh_token : Option String
  scopes : List String
  expiryTimestamp : Int   -- credentials.expiry.timestamp(), a number
  deriving Repr, DecidableEq

/-- The request metadata dict built in src/auth/routes.py:55-58. -/
structure ReqInfo where
  ip : Option String
  user_agent : Option String
  deriving Repr, DecidableEq

/-- Everything the persistence chain of `exchange_code_for_token`
(src/auth/oauth.py:111-143) depends on besides its arguments: the three
tables, the freshly drawn ids/tokens, the commit-race outcome, the clock,
and optional injected exceptions (`fault1..3`) standing for arbitrary
storage failures in each of the three steps. -/
structure PersistCtx where
  users : List DbUser
  accounts : List DbAccount
  sessions : List DbSessionRow
  newUserId : String
  commitRaces : Bool
  usersAtCommit : List DbUser
  newAccountRowId : String
  newSessionRowId : String
  newSessionToken : String
  now : Int
  fault1 : Option PyErr := none
  fault2 : Option PyErr := none
  fault3 : Option PyErr := none
  deriving Repr, DecidableEq

/-- Result of `exchange_code_for_token`: the returned value, the CSRF state
ledger afterwards, and whether the provider token exchange
(`flow.fetch_token`) was reached. -/
structure ExchOut where
  result : Option TokenData
  states : List String
  exchanged : Bool
  deriving Repr, DecidableEq

/-- src/auth/oauth.py:113-143 — the `try:` block persisting user, account
and session.  Any exception (from the modelled services or injected) is
caught and the token-data dict as mutated so far is kept. -/
def runPersistChain (c : PersistCtx) (ui : UserInfo) (td : TokenData)
    (request_info : Option ReqInfo) : TokenData :=
  let step1 : Except PyErr (DbUser × Bool × List DbUser) :=
    match c.fault1 with
    | some e => .error e
    | none => find_or_create_user c.users ui c.newUserId c.commitRaces c.usersAtCommit
  match step1 with
  | .error _ => td
  | .ok (user, _, _) =>
    let step2 : Except PyErr (DbAccount × List DbAccount) :=
      match c.fault2 with
      | some e => .error e
      | none => create_or_update_account c.accounts user.id "google" td c.now
          c.newAccountRowId
    match step2 with
    | .error _ => td
    | .ok _ =>
      match request_info with
      | some r =>
        let step3 : Except PyErr (DbSessionRow × List DbSessionRow) :=
          match c.fault3 with
          | some e => .error e
          | none => .ok (create_session c.sessions user.id none r.ip
              r.user_agent c.now c.newSessionRowId c.newSessionToken)
        match step3 with
        | .error _ => td
        | .ok (session, _) =>
          { td with session_token := some session.token, user_id := some user.id }
      | none => { td with user_id := some user.id }

/-- src/auth/oauth.py:57-73 — `generate_auth_url`: register a fresh CSRF
state in `active_states` (dict assignment) and hand it out. -/
def generate_auth_url (active_states : List String) (freshState : String) :
    List String × String :=
  (freshState :: active_states.filter (fun s => s != freshState), freshState)

/-- src/auth/oauth.py:76-145 — `exchange_code_for_token`: an unregistered
state returns `None` before any provider call; a registered state is deleted
from the ledger, the code is exchanged (`creds` are the fetched
credentials), the profile fetch result is attached when present, and — given
a db session and a profile with a truthy email — the best-effort persistence
chain runs. -/
def exchange_code_for_token (active_states : List String) (state : String)
    (creds : ProviderCreds) (user_info_result : Option UserInfo)
    (db : Option PersistCtx) (request_info : Option ReqInfo) : ExchOut :=
  if state ∈ active_states then
    let states' := active_states.filter (fun s => s != state)
    let td : TokenData :=
      { token := some creds.token, refresh_token := creds.refresh_token,
        scopes := some creds.scopes,
        expires_in := some (.enum creds.expiryTimestamp) }
    match user_info_result with
    | none => ⟨some td, states', true⟩
    | some ui =>
      let td := { td with user_info := some ui }
      match db with
      | none => ⟨some td, states', true⟩
      | some c =>
        if truthyStr ui.email then
          ⟨some (runPersistChain c ui td request_info), states', true⟩
        else ⟨some td, states', true⟩
  else ⟨none, active_states, false⟩

/-- The persistence chain only ever adds a session token and a user id to
the token-data dict; every other field survives unchanged. -/
theorem runPersistChain_shape (c : PersistCtx) (ui : UserInfo)
    (td : TokenData) (ri : Option ReqInfo) :
    ∃ stk uid, runPersistChain c ui td ri =
      { td with session_token := stk, user_id := uid } := by
  unfold runPersistChain
  dsimp only
  repeat' split
  all_goals exact ⟨_, _, rfl⟩

/-! ## Claim C3 -/

/-- C3: with a registered state and a profile carrying a truthy email, the
caller always receives the provider token bundle (access token, refresh
token, scopes, expiry, profile) — whatever the three persistence steps do,
including raising arbitrary exceptions (`c.fault1..3`, commit races, or
service-level errors). -/
theorem C3_persistence_failure_nonfatal
    (states : List String) (st : String) (creds : ProviderCreds)
    (ui : UserInfo) (c : PersistCtx) (ri : Option ReqInfo)
    (hst : st ∈ states) (hemail : truthyStr ui.email = true) :
    ∃ td, (exchange_code_for_token states st creds (some ui) (some c) ri).result
        = some td ∧
      td.token = some creds.token ∧
      td.refresh_token = creds.refresh_token ∧
      td.scopes = some creds.scopes ∧
      td.expires_in = some (.enum creds.expiryTimestamp) ∧
      td.user_info = some ui := by
  unfold exchange_code_for_token
  rw [if_pos hst]
  dsimp only
  rw [if_pos hemail]
  obtain ⟨stk, uid, hsh⟩ := runPersistChain_shape c ui
    { token := some creds.token, refresh_token := creds.refresh_token,
      scopes := some creds.scopes,
      expires_in := some (.enum creds.expiryTimestamp), user_info := some ui } ri
  rw [hsh]
  exact ⟨_, rfl, rfl, rfl, rfl, rfl, rfl⟩

/-- Witness for C3: a concrete call whose account-persistence step raises an
injected storage exception still returns the provider bundle. -/
theorem C3_persistence_failure_nonfatal_witness :
    ∃ td, (exchange_code_for_token ["s1"] "s1" ⟨"at", some "rt", ["sc"], 42⟩
        (some ⟨some "a@x.com", some "A", true, none, some "g1"⟩)
        (some { users := [], accounts := [], sessions := [], newUserId := "u1",
                commitRaces := false, usersAtCommit := [],
                newAccountRowId := "a1", newSessionRowId := "s9",
                newSessionToken := "tk", now := 0,
                fault2 := some .otherErr }) none).result = some td ∧
      td.token = some "at" ∧
      td.refresh_token = some "rt" ∧
      td.scopes = some ["sc"] ∧
      td.expires_in = some (.enum 42) ∧
      td.user_info = some ⟨some "a@x.com", some "A", true, none, some "g1"⟩ :=
  C3_persistence_failure_nonfatal ["s1"] "s1" ⟨"at", some "rt", ["sc"], 42⟩
    ⟨some "a@x.com", some "A", true, none, some "g1"⟩
    { users := [], accounts := [], sessions := [], newUserId := "u1",
      commitRaces := false, usersAtCommit := [], newAccountRowId := "a1",
      newSessionRowId := "s9", newSessionToken := "tk", now := 0,
      fault2 := some .otherErr } none (by decide) (by decide)

/-! ## Auth routes (src/auth/routes.py) -/

/-- The module-level mutable state of src/auth/routes.py and
src/auth/oauth.py: the CSRF ledger `active_states`, the handoff map
`pending_clients` (state → client id) and the bundle store
`client_token_storage` (client id → token data). -/
structure AuthState where
  activeStates : List String
  pendingClients : List (String × String)
  clientTokens : List (String × TokenData)
  deriving Repr, DecidableEq

/-- src/auth/routes.py:27-43 — `GET /auth/login`: generate the auth URL
(registering the fresh CSRF state), draw a fresh client id and record the
handoff correlation `state → client_id`; return `(state, client_id)`. -/
def login (s : AuthState) (freshState freshClientId : String) :
    AuthState × String × String :=
  ({ s with
     activeStates := (generate_auth_url s.activeStates freshState).1,
     pendingClients := (freshState, freshClientId) ::
       s.pendingClients.filter (fun p => p.1 != freshState) },
   freshState, freshClientId)

/-- Responses of `GET /auth/callback`. -/
inductive CallbackResp
  | httpError (code : Nat) (detail : String)
  | htmlPage
  | jsonBundle (td : TokenData)
  deriving Repr, DecidableEq

/-- src/auth/routes.py:46-84 — `GET /auth/callback`: run the code exchange;
`None` becomes HTTP 400; with a pending handoff for the state, store the
bundle under its client id and return the HTML page; otherwise return the
bundle as JSON. -/
def oauth_callback (s : AuthState) (state : String) (creds : ProviderCreds)
    (user_info_result : Option UserInfo) (db : Option PersistCtx)
    (request_info : Option ReqInfo) : CallbackResp × AuthState :=
  let e := exchange_code_for_token s.activeStates state creds user_info_result
    db request_info
  let s1 : AuthState := { s with activeStates := e.states }
  match e.result with
  | none => (.httpError 400 "Invalid state parameter", s1)
  | some td =>
    match s1.pendingClients.find? (fun p => p.1 == state) with
    | some pc =>
      (.htmlPage,
       { s1 with clientTokens := (pc.2, td) ::
           s1.clientTokens.filter (fun p => p.1 != pc.2) })
    | none => (.jsonBundle td, s1)

/-- Responses of `GET /auth/token/{client_id}`. -/
inductive PollResp
  | bundle (td : TokenData)
  | pending
  deriving Repr, DecidableEq

/-- src/auth/routes.py:87-98 — `GET /auth/token/{client_id}`: return and
delete the stored bundle, or the pending marker. -/
def get_token (s : AuthState) (client_id : String) : PollResp × AuthState :=
  match s.clientTokens.find? (fun p => p.1 == client_id) with
  | some pc =>
    (.bundle pc.2,
     { s with clientTokens := s.clientTokens.filter (fun p => p.1 != client_id) })
  | none => (.pending, s)

/-- A registered state always reaches the provider exchange and is deleted
from the ledger. -/
theorem exchange_registered_spec (states : List String) (st : String)
    (creds : ProviderCreds) (ui : Option UserInfo) (db : Option PersistCtx)
    (ri : Option ReqInfo) (h : st ∈ states) :
    ∃ td, exchange_code_for_token states st creds ui db ri =
      ⟨some td, states.filter (fun s => s != st), true⟩ := by
  unfold exchange_code_for_token
  rw [if_pos h]
  cases ui with
  | none => exact ⟨_, rfl⟩
  | some u =>
    cases db with
    | none => exact ⟨_, rfl⟩
    | some c =>
      cases he : truthyStr u.email with
      | false => simp only [he]; exact ⟨_, rfl⟩
      | true => simp only [he]; exact ⟨_, rfl⟩

/-- An unregistered state fails before the provider exchange and leaves the
ledger untouched. -/
theorem exchange_unregistered_spec (states : List String) (st : String)
    (creds : ProviderCreds) (ui : Option UserInfo) (db : Option PersistCtx)
    (ri : Option ReqInfo) (h : st ∉ states) :
    exchange_code_for_token states st creds ui db ri = ⟨none, states, false⟩ := by
  unfold exchange_code_for_token
  rw [if_neg h]

/-! ## Claim C1 -/

/-- C1: `generate_auth_url` registers its state; the first
`exchange_code_for_token` with a registered state proceeds (performs the
provider exchange) and removes the state; a second call with the same state,
or any call with a never-registered state, returns `None` without performing
the exchange and leaves the ledger unchanged; the callback route surfaces
the `None` as HTTP 400. -/
theorem C1_csrf_state_consumed_once (states : List String) (st st' fresh : String)
    (creds creds2 creds3 : ProviderCreds) (ui ui2 ui3 : Option UserInfo)
    (db db2 db3 : Option PersistCtx) (ri ri2 ri3 : Option ReqInfo)
    (pc : List (String × String)) (ct : List (String × TokenData))
    (hreg : st ∈ states) (hunreg : st' ∉ states) :
    fresh ∈ (generate_auth_url states fresh).1 ∧
    (exchange_code_for_token states st creds ui db ri).result.isSome = true ∧
    (exchange_code_for_token states st creds ui db ri).exchanged = true ∧
    st ∉ (exchange_code_for_token states st creds ui db ri).states ∧
    exchange_code_for_token (exchange_code_for_token states st creds ui db ri).states
        st creds2 ui2 db2 ri2 =
      ⟨none, (exchange_code_for_token states st creds ui db ri).states, false⟩ ∧
    (oauth_callback ⟨(exchange_code_for_token states st creds ui db ri).states, pc, ct⟩
        st creds2 ui2 db2 ri2).1 = .httpError 400 "Invalid state parameter" ∧
    exchange_code_for_token states st' creds3 ui3 db3 ri3 = ⟨none, states, false⟩ := by
  obtain ⟨td, h1⟩ := exchange_registered_spec states st creds ui db ri hreg
  have hnotin : st ∉ (exchange_code_for_token states st creds ui db ri).states := by
    rw [h1]
    intro hmem
    have := (List.mem_filter.mp hmem).2
    simp at this
  refine ⟨List.mem_cons_self _ _, by simp [h1], by simp [h1], hnotin, ?_, ?_, ?_⟩
  · exact exchange_unregistered_spec _ st creds2 ui2 db2 ri2 hnotin
  · unfold oauth_callback
    rw [exchange_unregistered_spec _ st creds2 ui2 db2 ri2 hnotin]
  · exact exchange_unregistered_spec states st' creds3 ui3 db3 ri3 hunreg

/-- Witness for C1 at concrete inputs: ledger `["s1"]`, registered state
`"s1"`, unregistered state `"zz"`. -/
theorem C1_csrf_state_consumed_once_witness :
    "s0" ∈ (generate_auth_url ["s1"] "s0").1 ∧
    (exchange_code_for_token ["s1"] "s1" ⟨"at", none, [], 0⟩ none none none).result.isSome
      = true ∧
    (exchange_code_for_token ["s1"] "s1" ⟨"at", none, [], 0⟩ none none none).exchanged
      = true ∧
    "s1" ∉ (exchange_code_for_token ["s1"] "s1" ⟨"at", none, [], 0⟩ none none none).states ∧
    exchange_code_for_token
        (exchange_code_for_token ["s1"] "s1" ⟨"at", none, [], 0⟩ none none none).states
        "s1" ⟨"at", none, [], 0⟩ none none none =
      ⟨none, (exchange_code_for_token ["s1"] "s1" ⟨"at", none, [], 0⟩ none none none).states,
       false⟩ ∧
    (oauth_callback
        ⟨(exchange_code_for_token ["s1"] "s1" ⟨"at", none, [], 0⟩ none none none).states,
         [], []⟩ "s1" ⟨"at", none, [], 0⟩ none none none).1 =
      .httpError 400 "Invalid state parameter" ∧
    exchange_code_for_token ["s1"] "zz" ⟨"at", none, [], 0⟩ none none none =
      ⟨none, ["s1"], false⟩ :=
  C1_csrf_state_consumed_once ["s1"] "s1" "zz" "s0"
    ⟨"at", none, [], 0⟩ ⟨"at", none, [], 0⟩ ⟨"at", none, [], 0⟩ none none none
    none none none none none none [] [] (by decide) (by decide)

/-! ## Claim C7 -/

/-- C7: polling delivers a stored bundle at most once — with unique client
ids (dict keys), the first poll after the bundle is stored returns it and
deletes it, the immediately following poll returns the pending marker, and a
poll for a client id with no stored bundle returns the pending marker and
changes nothing. -/
theorem C7_poll_at_most_once (states : List String)
    (pcs : List (String × String)) (ct : List (String × TokenData))
    (cid : String) (td : TokenData)
    (huniq : (ct.map Prod.fst).Nodup) :
    ((cid, td) ∈ ct →
      get_token ⟨states, pcs, ct⟩ cid =
        (.bundle td, ⟨states, pcs, ct.filter (fun p => p.1 != cid)⟩) ∧
      (get_token (get_token ⟨states, pcs, ct⟩ cid).2 cid).1 = .pending) ∧
    ((∀ p ∈ ct, p.1 ≠ cid) →
      get_token ⟨states, pcs, ct⟩ cid = (.pending, ⟨states, pcs, ct⟩)) := by
  constructor
  · intro hmem
    have hfind : ct.find? (fun p => p.1 == cid) = some (cid, td) := by
      cases hf : ct.find? (fun p => p.1 == cid) with
      | none =>
        rw [List.find?_eq_none] at hf
        exact absurd (by simp) (hf (cid, td) hmem)
      | some q =>
        have hqmem := List.mem_of_find?_eq_some hf
        have hq := List.find?_some hf
        simp only [beq_iff_eq] at hq
        have : (cid, td) = q :=
          List.inj_on_of_nodup_map huniq hmem hqmem (by simp [hq])
        rw [← this]
    have hsecond :
        (ct.filter (fun p => p.1 != cid)).find? (fun p => p.1 == cid) = none := by
      rw [List.find?_eq_none]
      intro p hp
      have := (List.mem_filter.mp hp).2
      simp only [bne_iff_ne, ne_eq, decide_eq_true_eq] at this
      simp [this]
    constructor
    · unfold get_token
      rw [hfind]
    · unfold get_token
      rw [hfind]
      dsimp only
      rw [hsecond]
  · intro hnone
    have hfind : ct.find? (fun p => p.1 == cid) = none := by
      rw [List.find?_eq_none]
      intro p hp
      simp [hnone p hp]
    unfold get_token
    rw [hfind]

/-- Witness for C7: a stored bundle for `c1` is delivered once and deleted;
the second poll and a poll for the unknown `c2` are pending. -/
theorem C7_poll_at_most_once_witness :
    get_token ⟨[], [], [("c1", { token := some "t", refresh_token := none })]⟩ "c1" =
      (.bundle { token := some "t", refresh_token := none }, ⟨[], [], []⟩) ∧
    (get_token (get_token
        ⟨[], [], [("c1", { token := some "t", refresh_token := none })]⟩ "c1").2
      "c1").1 = .pending :=
  (C7_poll_at_most_once [] [] [("c1", { token := some "t", refresh_token := none })]
    "c1" { token := some "t", refresh_token := none } (by decide)).1 (by simp)

/-! ## Operation sequences over the auth routes (for claim C9) -/

/-- One inbound request against the auth routes' shared state. -/
inductive AuthOp
  | opLogin (freshState freshClientId : String)
  | opCallback (st : String) (creds : ProviderCreds) (ui : Option UserInfo)
      (db : Option PersistCtx) (ri : Option ReqInfo)
  | opPoll (cid : String)

/-- Apply one request to the shared state (responses discarded). -/
def applyOp (s : AuthState) : AuthOp → AuthState
  | .opLogin fs fc => (login s fs fc).1
  | .opCallback st creds ui db ri => (oauth_callback s st creds ui db ri).2
  | .opPoll cid => (get_token s cid).2

/-- Apply a sequence of requests left to right. -/
def applyOps (s : AuthState) : List AuthOp → AuthState
  | [] => s
  | op :: rest => applyOps (applyOp s op) rest

/-- The callback route never touches `pending_clients`. -/
theorem oauth_callback_pendingClients (s : AuthState) (st : String)
    (creds : ProviderCreds) (ui : Option UserInfo) (db : Option PersistCtx)
    (ri : Option ReqInfo) :
    (oauth_callback s st creds ui db ri).2.pendingClients = s.pendingClients := by
  unfold oauth_callback
  dsimp only
  split
  · rfl
  · split <;> rfl

/-- The polling route never touches `pending_clients`. -/
theorem get_token_pendingClients (s : AuthState) (cid : String) :
    (get_token s cid).2.pendingClients = s.pendingClients := by
  unfold get_token
  split <;> rfl

/-- The login route only adds to `pending_clients`: every key present before
is present after. -/
theorem login_pendingClients_mono (s : AuthState) (fs fc k : String)
    (h : k ∈ s.pendingClients.map Prod.fst) :
    k ∈ (login s fs fc).1.pendingClients.map Prod.fst := by
  unfold login
  dsimp only
  rcases List.mem_map.mp h with ⟨p, hp, hk⟩
  by_cases hkf : k = fs
  · subst hkf
    exact List.mem_map.mpr ⟨(k, fc), List.mem_cons_self _ _, rfl⟩
  · refine List.mem_map.mpr ⟨p, List.mem_cons_of_mem _ ?_, hk⟩
    refine List.mem_filter.mpr ⟨hp, ?_⟩
    simp [hk, hkf]

/-- No request removes a key from `pending_clients`. -/
theorem applyOp_pendingClients_mono (s : AuthState) (op : AuthOp) (k : String)
    (h : k ∈ s.pendingClients.map Prod.fst) :
    k ∈ (applyOp s op).pendingClients.map Prod.fst := by
  cases op with
  | opLogin fs fc => exact login_pendingClients_mono s fs fc k h
  | opCallback st creds ui db ri =>
    show k ∈ (oauth_callback s st creds ui db ri).2.pendingClients.map Prod.fst
    rw [oauth_callback_pendingClients]
    exact h
  | opPoll cid =>
    show k ∈ (get_token s cid).2.pendingClients.map Prod.fst
    rw [get_token_pendingClients]
    exact h

/-- No sequence of requests removes a key from `pending_clients`. -/
theorem applyOps_pendingClients_mono (ops : List AuthOp) (s : AuthState)
    (k : String) (h : k ∈ s.pendingClients.map Prod.fst) :
    k ∈ (applyOps s ops).pendingClients.map Prod.fst := by
  induction ops generalizing s with
  | nil => exact h
  | cons op rest ih => exact ih _ (applyOp_pendingClients_mono s op k h)

/-! ## Claim C9 -/

/-- C9: after `/auth/login` issues state `S` (registering `S → cid` in
`pending_clients`) and any sequence of further requests runs, `S` is still a
`pending_clients` key; hence a callback for `S` never returns the raw JSON
bundle — it either fails with HTTP 400 (state already consumed/unknown) or
takes the handoff branch, returning the HTML page and storing the bundle
under the client id correlated with `S`. -/
theorem C9_login_states_always_handoff (s0 : AuthState) (S cid : String)
    (ops : List AuthOp) (creds : ProviderCreds) (ui : Option UserInfo)
    (db : Option PersistCtx) (ri : Option ReqInfo) :
    S ∈ (applyOps (login s0 S cid).1 ops).pendingClients.map Prod.fst ∧
    (∀ td, (oauth_callback (applyOps (login s0 S cid).1 ops) S creds ui db ri).1
      ≠ .jsonBundle td) ∧
    ((oauth_callback (applyOps (login s0 S cid).1 ops) S creds ui db ri).1
        ≠ .httpError 400 "Invalid state parameter" →
      (oauth_callback (applyOps (login s0 S cid).1 ops) S creds ui db ri).1
          = .htmlPage ∧
      ∃ q td,
        (applyOps (login s0 S cid).1 ops).pendingClients.find? (fun p => p.1 == S)
          = some q ∧
        (oauth_callback (applyOps (login s0 S cid).1 ops) S creds ui db ri).2.clientTokens.find?
          (fun p => p.1 == q.2) = some (q.2, td)) := by
  set s1 : AuthState := applyOps (login s0 S cid).1 ops with hs1
  have hS : S ∈ s1.pendingClients.map Prod.fst := by
    rw [hs1]
    apply applyOps_pendingClients_mono
    exact List.mem_map.mpr ⟨(S, cid), List.mem_cons_self _ _, rfl⟩
  obtain ⟨q, hq⟩ : ∃ q, s1.pendingClients.find? (fun p => p.1 == S) = some q := by
    cases hf : s1.pendingClients.find? (fun p => p.1 == S) with
    | none =>
      rw [List.find?_eq_none] at hf
      rcases List.mem_map.mp hS with ⟨p, hp, hk⟩
      exact absurd (by simp [hk]) (hf p hp)
    | some q => exact ⟨q, rfl⟩
  refine ⟨hS, ?_, ?_⟩
  · intro td
    by_cases hmem : S ∈ s1.activeStates
    · obtain ⟨td0, hex⟩ := exchange_registered_spec s1.activeStates S creds ui db ri hmem
      unfold oauth_callback
      rw [hex]
      dsimp only
      rw [hq]
      intro h
      exact CallbackResp.noConfusion h
    · have hex := exchange_unregistered_spec s1.activeStates S creds ui db ri hmem
      unfold oauth_callback
      rw [hex]
      intro h
      exact CallbackResp.noConfusion h
  · intro hne
    by_cases hmem : S ∈ s1.activeStates
    · obtain ⟨td0, hex⟩ := exchange_registered_spec s1.activeStates S creds ui db ri hmem
      have hcb : oauth_callback s1 S creds ui db ri =
          (.htmlPage,
           { s1 with
             activeStates := s1.activeStates.filter (fun s => s != S),
             clientTokens := (q.2, td0) ::
               s1.clientTokens.filter (fun p => p.1 != q.2) }) := by
        unfold oauth_callback
        rw [hex]
        dsimp only
        rw [hq]
      refine ⟨by rw [hcb], q, td0, hq, ?_⟩
      rw [hcb]
      simp
    · have hex := exchange_unregistered_spec s1.activeStates S creds ui db ri hmem
      have hcb : (oauth_callback s1 S creds ui db ri).1 =
          .httpError 400 "Invalid state parameter" := by
        unfold oauth_callback
        rw [hex]
      exact absurd hcb hne

/-- Witness for C9: starting from the empty shared state, login issues
`S`/`C1`; an immediate callback for `S` takes the handoff branch (HTML page,
bundle stored under `C1`). -/
theorem C9_login_states_always_handoff_witness :
    (oauth_callback (applyOps (login ⟨[], [], []⟩ "S" "C1").1 [])
        "S" ⟨"at", none, [], 0⟩ none none none).1 = .htmlPage ∧
    ∃ q td,
      (applyOps (login ⟨[], [], []⟩ "S" "C1").1 []).pendingClients.find?
        (fun p => p.1 == "S") = some q ∧
      (oauth_callback (applyOps (login ⟨[], [], []⟩ "S" "C1").1 [])
        "S" ⟨"at", none, [], 0⟩ none none none).2.clientTokens.find?
        (fun p => p.1 == q.2) = some (q.2, td) :=
  (C9_login_states_always_handoff ⟨[], [], []⟩ "S" "C1" []
    ⟨"at", none, [], 0⟩ none none none).2.2 (by decide)

/-! ## Friends routes (src/friends/routes.py) -/

/-- A row of the `user_friends` table, column order as assumed by the route
code (`status = existing_friendship[3]`, src/friends/routes.py:97): id,
user_id, friend_id, status, chatroom_id.  The table itself is created
outside src/. -/
structure FriendRow where
  id : String
  user_id : String
  friend_id : String
  status : String
  chatroom_id : Option String
  deriving Repr, DecidableEq

/-- An HTTPException as raised by the routes: status code and detail. -/
structure HErr where
  status : Nat
  detail : String
  deriving Repr, DecidableEq

/-- Modelled from the spec: the Postgres stored function
`send_friend_request(userId, friendId)` called at
src/friends/routes.py:106-111 is not under src/; §4.6 of the spec says it
"inserts a new `pending` row (requester → target)". -/
def sql_send_friend_request (rows : List FriendRow)
    (user_id friend_id newRowId : String) : List FriendRow :=
  rows ++ [⟨newRowId, user_id, friend_id, "pending", none⟩]

/-- Modelled from the spec: the Postgres stored function
`remove_friend(userId, friendId)` called at src/friends/routes.py:293-298 is
not under src/; §4.6 of the spec says it "delete[s] the relationship row for
the (unordered) pair", reporting whether one existed. -/
def sql_remove_friend (rows : List FriendRow) (user_id friend_id : String) :
    Bool × List FriendRow :=
  (rows.any (fun r =>
      (r.user_id == user_id && r.friend_id == friend_id) ||
      (r.user_id == friend_id && r.friend_id == user_id)),
   rows.filter (fun r =>
      !((r.user_id == user_id && r.friend_id == friend_id) ||
        (r.user_id == friend_id && r.friend_id == user_id))))

/-- src/friends/routes.py:57-122 — `POST /friends` (send friend request):
resolve the target by email (404 if absent); 400 on self; query the
relationship in both directions and reject `accepted` (400 "Already a
friend") and `pending` (400 "Friend request already sent"); otherwise insert
a pending requester → target row. -/
def send_friend_request (users : List DbUser) (rows : List FriendRow)
    (user_id friend_email newRowId : String) :
    Except HErr String × List FriendRow :=
  match users.find? (fun u => u.email == friend_email) with
  | none => (.error ⟨404, "User not found"⟩, rows)
  | some u =>
    if user_id == u.id then
      (.error ⟨400, "Cannot add yourself as a friend"⟩, rows)
    else
      match rows.find? (fun r =>
          (r.user_id == user_id && r.friend_id == u.id) ||
          (r.user_id == u.id && r.friend_id == user_id)) with
      | some r =>
        if r.status == "accepted" then (.error ⟨400, "Already a friend"⟩, rows)
        else if r.status == "pending" then
          (.error ⟨400, "Friend request already sent"⟩, rows)
        else (.ok "Friend request sent",
              sql_send_friend_request rows user_id u.id newRowId)
      | none => (.ok "Friend request sent",
                 sql_send_friend_request rows user_id u.id newRowId)

/-- src/friends/routes.py:279-313 — `POST /friends/delete`: 400 on a falsy
friend id, 403 on self, then `remove_friend` with 404 when no row for the
unordered pair existed. -/
def delete_friend (rows : List FriendRow) (user_id friend_id : String) :
    Except HErr String × List FriendRow :=
  if friend_id == "" then (.error ⟨400, "Missing required parameters"⟩, rows)
  else if friend_id == user_id then
    (.error ⟨403, "Cannot delete yourself"⟩, rows)
  else
    match sql_remove_friend rows user_id friend_id with
    | (removed, rows') =>
      if removed then (.ok "Friend deleted", rows')
      else (.error ⟨404, "Friend relationship not found"⟩, rows)

/-! ## Claim C2 -/

/-- C2: with no relationship row for the unordered pair, `sendRequest(A,B)`
succeeds and inserts a pending A → B row, and the subsequent
`sendRequest(B,A)` fails with 400 "Friend request already sent" without
changing the store: the duplicate-pending query matches both directions. -/
theorem C2_pending_check_symmetric (users : List DbUser)
    (rows : List FriendRow) (A B emailA emailB rid1 rid2 : String)
    (uA uB : DbUser) (hAB : A ≠ B)
    (hfB : users.find? (fun x => x.email == emailB) = some uB)
    (hBid : uB.id = B)
    (hfA : users.find? (fun x => x.email == emailA) = some uA)
    (hAid : uA.id = A)
    (hnone : ∀ r ∈ rows,
      ¬((r.user_id = A ∧ r.friend_id = B) ∨ (r.user_id = B ∧ r.friend_id = A))) :
    send_friend_request users rows A emailB rid1 =
      (.ok "Friend request sent", rows ++ [⟨rid1, A, B, "pending", none⟩]) ∧
    (send_friend_request users (rows ++ [⟨rid1, A, B, "pending", none⟩])
        B emailA rid2).1 = .error ⟨400, "Friend request already sent"⟩ ∧
    (send_friend_request users (rows ++ [⟨rid1, A, B, "pending", none⟩])
        B emailA rid2).2 = rows ++ [⟨rid1, A, B, "pending", none⟩] := by
  have hfind1 : rows.find? (fun r =>
      (r.user_id == A && r.friend_id == uB.id) ||
      (r.user_id == uB.id && r.friend_id == A)) = none := by
    rw [List.find?_eq_none]
    intro r hr
    have := hnone r hr
    simp only [hBid, Bool.or_eq_true, Bool.and_eq_true, beq_iff_eq]
    exact this
  have h1 : send_friend_request users rows A emailB rid1 =
      (.ok "Friend request sent", rows ++ [⟨rid1, A, B, "pending", none⟩]) := by
    unfold send_friend_request
    rw [hfB]
    dsimp only
    rw [if_neg (by simp [hBid]; exact hAB)]
    rw [hfind1]
    dsimp only [sql_send_friend_request]
    rw [hBid]
  have hfind2 : (rows ++ [(⟨rid1, A, B, "pending", none⟩ : FriendRow)]).find?
      (fun r => (r.user_id == B && r.friend_id == uA.id) ||
        (r.user_id == uA.id && r.friend_id == B)) =
      some ⟨rid1, A, B, "pending", none⟩ := by
    rw [List.find?_append]
    have hrows : rows.find? (fun r =>
        (r.user_id == B && r.friend_id == uA.id) ||
        (r.user_id == uA.id && r.friend_id == B)) = none := by
      rw [List.find?_eq_none]
      intro r hr
      have := hnone r hr
      simp only [hAid, Bool.or_eq_true, Bool.and_eq_true, beq_iff_eq]
      exact fun h => this (h.elim Or.inr Or.inl)
    rw [hrows]
    simp [hAid]
  refine ⟨h1, ?_, ?_⟩
  · unfold send_friend_request
    rw [hfA]
    dsimp only
    rw [if_neg (by simp [hAid]; exact fun h => hAB h.symm)]
    rw [hfind2]
    rfl
  · unfold send_friend_request
    rw [hfA]
    dsimp only
    rw [if_neg (by simp [hAid]; exact fun h => hAB h.symm)]
    rw [hfind2]
    rfl

/-- Witness for C2: two users `A`/`B`, empty relationship table; A sends to
B, then B's request to A is rejected as already pending. -/
theorem C2_pending_check_symmetric_witness :
    send_friend_request
        [⟨"A", none, "a@x.com", false, none⟩, ⟨"B", none, "b@x.com", false, none⟩]
        [] "A" "b@x.com" "r1" =
      (.ok "Friend request sent", [] ++ [⟨"r1", "A", "B", "pending", none⟩]) ∧
    (send_friend_request
        [⟨"A", none, "a@x.com", false, none⟩, ⟨"B", none, "b@x.com", false, none⟩]
        ([] ++ [⟨"r1", "A", "B", "pending", none⟩]) "B" "a@x.com" "r2").1 =
      .error ⟨400, "Friend request already sent"⟩ ∧
    (send_friend_request
        [⟨"A", none, "a@x.com", false, none⟩, ⟨"B", none, "b@x.com", false, none⟩]
        ([] ++ [⟨"r1", "A", "B", "pending", none⟩]) "B" "a@x.com" "r2").2 =
      [] ++ [⟨"r1", "A", "B", "pending", none⟩] :=
  C2_pending_check_symmetric
    [⟨"A", none, "a@x.com", false, none⟩, ⟨"B", none, "b@x.com", false, none⟩]
    [] "A" "B" "a@x.com" "b@x.com" "r1" "r2"
    ⟨"A", none, "a@x.com", false, none⟩ ⟨"B", none, "b@x.com", false, none⟩
    (by decide) (by decide) rfl (by decide) rfl (by simp)

/-! ## Claim C8 -/

/-- C8 counterexample: a self-directed friend request (the supplied email
resolves to the caller) is rejected with HTTP 400, not 403 as the claim
states for both self-directed mutations. -/
theorem C8_self_action_counterexample :
    (send_friend_request [⟨"A", none, "a@x.com", false, none⟩] [] "A" "a@x.com"
        "r1").1 = .error ⟨400, "Cannot add yourself as a friend"⟩ ∧
    (400 : Nat) ≠ 403 := by
  exact ⟨rfl, by decide⟩

/-- C8 (amended): a self-directed `sendRequest` (friend email resolving to
the caller) fails with HTTP **400** "Cannot add yourself as a friend",
leaving the store unchanged; a self-directed `removeFriend` with a nonempty
friend id fails with HTTP **403** "Cannot delete yourself". -/
theorem C8_self_action_amended (users : List DbUser) (rows : List FriendRow)
    (uid friend_email fid newRowId : String) (u : DbUser)
    (hfind : users.find? (fun x => x.email == friend_email) = some u)
    (hself : u.id = uid) :
    (send_friend_request users rows uid friend_email newRowId).1 =
      .error ⟨400, "Cannot add yourself as a friend"⟩ ∧
    (send_friend_request users rows uid friend_email newRowId).2 = rows ∧
    (fid ≠ "" → fid = uid →
      delete_friend rows uid fid = (.error ⟨403, "Cannot delete yourself"⟩, rows)) := by
  have hsend : send_friend_request users rows uid friend_email newRowId =
      (.error ⟨400, "Cannot add yourself as a friend"⟩, rows) := by
    unfold send_friend_request
    rw [hfind]
    dsimp only
    rw [if_pos (by simp [hself])]
  refine ⟨by rw [hsend], by rw [hsend], ?_⟩
  intro hne hfu
  unfold delete_friend
  rw [if_neg (by simpa using hne), if_pos (by simp [hfu])]

/-- Witness for the amended C8 at concrete inputs. -/
theorem C8_self_action_amended_witness :
    (send_friend_request [⟨"A", none, "a@x.com", false, none⟩] [] "A" "a@x.com"
        "r1").1 = .error ⟨400, "Cannot add yourself as a friend"⟩ ∧
    (send_friend_request [⟨"A", none, "a@x.com", false, none⟩] [] "A" "a@x.com"
        "r1").2 = [] ∧
    delete_friend [] "A" "A" = (.error ⟨403, "Cannot delete yourself"⟩, []) :=
  ⟨(C8_self_action_amended [⟨"A", none, "a@x.com", false, none⟩] [] "A" "a@x.com"
      "A" "r1" ⟨"A", none, "a@x.com", false, none⟩ (by decide) rfl).1,
   (C8_self_action_amended [⟨"A", none, "a@x.com", false, none⟩] [] "A" "a@x.com"
      "A" "r1" ⟨"A", none, "a@x.com", false, none⟩ (by decide) rfl).2.1,
   (C8_self_action_amended [⟨"A", none, "a@x.com", false, none⟩] [] "A" "a@x.com"
      "A" "r1" ⟨"A", none, "a@x.com", false, none⟩ (by decide) rfl).2.2
     (by decide) rfl⟩

end ChatServer
